import Mathlib

/-!
Shallow embedding of `streamlit_intent.py` (College Buddy intent analyzer).

The script orchestrates three external services (OpenAI completions and
embeddings, a Pinecone vector index, and the Streamlit UI).  External calls
are threaded through the embedding as explicit oracle arguments of type
`Except PyExn String`: `Except.error` models a raised exception at the
service boundary, `Except.ok` models the text the service returned.  The
Streamlit session state (`st.session_state`) is the `SessionState` record,
and each user-triggered handler is a function from the old state (plus its
oracles) to the new state together with the list of UI outputs it emits.
-/

set_option maxRecDepth 8000

/-- Python exceptions that the script can raise or observe: `keyError` is the
`KeyError` raised by a failed dict subscript, `externalServiceError` stands
for any exception raised inside an external service call. -/
inductive PyExn where
  | keyError
  | externalServiceError
deriving DecidableEq

/-- UI outputs emitted by a handler: `st.warning`, `st.error` (exception
details elided), displaying the follow-up clarification prompt, and writing
a plain text answer. -/
inductive UiOut where
  | warn (msg : String)
  | err (msg : String)
  | followUp (prompt : String)
  | text (msg : String)
deriving DecidableEq

/-- One entry of `st.session_state.chat_history` (`save_chat_history`). -/
structure ChatEntry where
  query : String
  answer : String
deriving DecidableEq

/-- The fields of `st.session_state` initialised by `init_session_state`.
Python initialises `intent` to the integer `0`; later assignments store the
result of `identify_intent`, which can be `None`, hence `Option Nat` with
initial value `some 0`. -/
structure SessionState where
  need_clarification : Bool
  clarification_query : String
  intent : Option Nat
  intent_instruction : String
  pinecone_context : String
  original_query : String
  chat_history : List ChatEntry
deriving DecidableEq

/-- `init_session_state` (source lines 12-24): the default session values. -/
def init_session_state : SessionState :=
  { need_clarification := false
    clarification_query := ""
    intent := some 0
    intent_instruction := ""
    pinecone_context := ""
    original_query := ""
    chat_history := [] }

/-- The `INTENT_INSTRUCTIONS` dict (source lines 51-145), modelled as a
lookup by integer key; `none` corresponds to a `KeyError` on subscript.
The strings are transcribed verbatim from the triple-quoted literals
(including leading or trailing blanks); apostrophes are written `\x27`. -/
def INTENT_INSTRUCTIONS (n : Nat) : Option String :=
  if n = 1 then some "\n    You are an AI assistant helping students understand how to declare their major at Texas Tech University. Provide information on the general process, which includes:\n    1. Completing the Academic Transfer Form with the advisor for the new major\n    2. Using Raider Success Hub to find an appointment with the new advisor\n    3. Selecting \x27Change My Major\x27 option in Raider Success Hub\n    Emphasize that this is the general process and some majors may have additional requirements.\n    "
  else if n = 2 then some "\n    You are an AI assistant informing students about special requirements for declaring majors in specific colleges or departments at Texas Tech University. When asked about a particular college or department, provide the following information:\n    1. Rawls College of Business: Direct students to check the specific requirements\n    2. Whitacre College of Engineering: Inform students to review requirements \n    3. Biological Sciences, College of Arts & Sciences: Guide students to check requirements \n    4. Physics and Astronomy, College of Arts and Sciences: Advise students to look at requirements \n    5. Wind Energy, College of Arts and Sciences: Direct students to review requirements.\n    Emphasize that these links provide the most up-to-date and detailed information for each specific college or department.\n    "
  else if n = 3 then some "\n    You are an AI assistant guiding students on how to use the Raider Success Hub at Texas Tech University for declaring a major. Provide the following information:\n    1. Explain that Raider Success Hub is the platform used to schedule appointments with advisors for changing majors\n    2. Instruct students to access Raider Success Hub.\n    3. Guide them to select the \x27Change My Major\x27 option within the platform\n    4. Emphasize that this is the official method for scheduling appointments related to changing majors\n    "
  else if n = 4 then some "\n    You are an AI assistant informing students about GPA and course requirements for declaring majors at Texas Tech University. Provide the following information:\n    1. Explain that some majors have higher GPA requirements than others\n    2. Mention that certain majors may have specific completed course requirements before students can declare\n    3. Emphasize the importance of checking the specific requirements for their intended major\n    4. Advise students to consult with an academic advisor or check the department\x27s website for the most accurate and up-to-date information on GPA and course requirements\n    5. Remind students that meeting the minimum requirements does not guarantee acceptance into a major, as some programs may have limited capacity\n    "
  else if n = 5 then some "\n    You are an AI assistant helping students with general queries about declaring majors at Texas Tech University. \n    Provide helpful information based on the context available, and if the query is outside your knowledge base, \n    advise the student to contact an academic advisor for more specific information.\n    "
  else if n = 6 then some "\n    You are an AI assistant providing comprehensive information and guidance about academic advising for students at Texas Tech University. Cover the following key aspects:\n    1. Preparation for advising appointments\n    2. Important tools and resources for students, such as Raider Success Hub and Degree Works\n    3. Navigation of Raiderlink, the university\x27s online portal\n    4. Information on course registration and enrollment management\n    5. Details about financial management, including tuition payments and financial aid\n    6. Academic resources and tools for exploring course options\n    7. Information on transcripts, grades, and academic calendars\n    Emphasize that this information serves as a reference guide to help students understand the advising process, navigate university systems, and make informed decisions about their academic journey at Texas Tech University.\n    "
  else if n = 7 then some "\n    You are an AI assistant providing information to new students at Texas Tech University about orientation and initial advising. Cover the following key aspects:\n    1. The mission of University Advising\n    2. Information about Red Raider Orientation (RRO)\n    3. The eXplore program\n    4. How to contact University Advising for questions\n    Emphasize that attending RRO is where new students will meet with an advisor and register for their first semester of classes.\n    "
  else if n = 8 then some "\n    You are an AI assistant providing information about courses, majors, and degree programs at Texas Tech University. Cover the following key aspects:\n    1. Available majors and degree programs\n    2. Specific information about a requested major or program\n    3. Degree types (B.A., B.S., B.B.A., etc.) and their meanings\n    4. Online program options\n    5. Concentrations within majors\n    Emphasize the diversity of programs available and direct students to the official catalog for the most up-to-date and detailed information.\n    "
  else if n = 9 then some "\n    You are an AI assistant providing comprehensive information about student life and wellness at Texas Tech University. Cover the following key aspects:\n    1. Staying healthy and maintaining fitness\n    2. Managing finances and saving money\n    3. Campus events and activities\n    4. Organization and time management\n    5. Preparing for classes and academic success\n    6. Dining options and nutrition\n    7. Dorm life and essentials\n    8. Campus safety\n    9. Transportation\n    10. Career development\n    11. Technology and IT services\n    Provide practical tips and guidance to help students navigate their college experience successfully.\n    "
  else if n = 10 then some "\n    You are an AI assistant providing specific information about food, dining, and nutrition for students at Texas Tech University. Cover the following key aspects:\n    1. On-campus dining options and locations\n    2. Smart Choice dining locations and healthy eating options\n    3. Meal planning and budgeting tips for students\n    4. Nutritional advice for maintaining a balanced diet in college\n    5. Dorm cooking ideas and recipes\n    6. Information about meal plans and dining dollars\n    7. Special dietary accommodations (vegetarian, vegan, gluten-free, etc.)\n    8. Tips for eating healthy on a student budget\n    9. Local off-campus dining options near Texas Tech\n    10. Food safety and storage tips for dorm living\n    Provide practical, actionable advice to help students make informed decisions about their dining and nutrition while at Texas Tech University.\n    "
  else none

/-- Subscripting `INTENT_INSTRUCTIONS[intent]` where `intent` may be the
Python value `None` (no key of the dict, so a `KeyError`). -/
def instrSubscript (intent : Option Nat) : Option String :=
  match intent with
  | none => none
  | some n => INTENT_INSTRUCTIONS n

/-- `get_intent_instruction` (source lines 227-228):
`INTENT_INSTRUCTIONS.get(intent, INTENT_INSTRUCTIONS[5])`. -/
def get_intent_instruction (intent : Option Nat) : String :=
  match instrSubscript intent with
  | some s => s
  | none => (INTENT_INSTRUCTIONS 5).getD ""

/-- Python `str.strip()`: remove leading and trailing whitespace. -/
def pyStrip (l : List Char) : List Char :=
  ((l.dropWhile Char.isWhitespace).reverse.dropWhile Char.isWhitespace).reverse

/-- Python `str.split('.')`: split at every dot; adjacent dots and dots at
either end yield empty pieces, and the result is never the empty list. -/
def splitOnDot : List Char → List (List Char)
  | [] => [[]]
  | x :: xs =>
      if x = '.' then [] :: splitOnDot xs
      else
        match splitOnDot xs with
        | [] => [[x]]
        | h :: t => (x :: h) :: t

/-- The scan performed by `re.search(r'\d+', response_text)` in
`identify_intent` (source line 222): the first maximal run of decimal
digits, or `none` when the text has no digit.  (Modelled over ASCII
digits.) -/
def firstRun : List Char → Option (List Char)
  | [] => none
  | c :: cs =>
      if c.isDigit then some (c :: cs.takeWhile Char.isDigit)
      else firstRun cs

/-- Python `int()` applied to a string of decimal digits. -/
def natOfDigits (ds : List Char) : Nat :=
  ds.foldl (fun n c => 10 * n + (c.toNat - 48)) 0

/-- `identify_intent` (source lines 194-224), restricted to its pure part:
the completion call is an oracle supplying `response_text`
(`...message.content`), which the code strips and scans for the first
integer.  When no integer is found the function falls off its end and
returns Python `None` (there is no range check and no default). -/
def identify_intent (content : String) : Option Nat :=
  (firstRun (pyStrip content.data)).map natOfDigits

/-- The `intent_options` dict inside `generate_clarification_query`
(source lines 231-242): the curated clarification sub-topics per intent. -/
def intent_options (n : Nat) : Option (List String) :=
  if n = 1 then some ["Steps to declare a major", "Required forms", "Advisor meeting process", "Timeline for declaration"]
  else if n = 2 then some ["Business school requirements", "Engineering prerequisites", "Arts & Sciences specific rules", "Minimum GPA for specific colleges"]
  else if n = 3 then some ["How to access Raider Success Hub", "Scheduling advisor appointments", "Navigating the platform", "Technical support for Raider Success Hub"]
  else if n = 4 then some ["Minimum GPA requirements", "Required core courses", "Credit hour prerequisites", "Transfer credit considerations"]
  else if n = 5 then some ["Changing majors process", "Double major requirements", "Minor declaration process", "Interdisciplinary studies options"]
  else if n = 6 then some ["Preparation for advising appointments", "Important academic tools and resources", "Course registration process", "Financial management information"]
  else if n = 7 then some ["Red Raider Orientation details", "University Advising mission", "eXplore program information", "Contacting University Advising"]
  else if n = 8 then some ["Specific major information", "Degree types explanation", "Online program options", "Concentrations within majors", "General list of available majors"]
  else if n = 9 then some ["Financial management", "Campus activities", "Study strategies", "Dorm life essentials"]
  else if n = 10 then some ["Healthy eating tips", "On-campus dining options", "Meal planning and budgeting", "Smart Choice dining locations", "Dorm cooking ideas"]
  else none

/-- `intent_options.get(intent, [...])` (source line 244), including the
built-in fallback list used when the intent is not a key of the dict. -/
def intent_options_get (intent : Option Nat) : List String :=
  (match intent with
   | none => none
   | some n => intent_options n).getD
    ["General information", "Specific examples", "Common issues", "Best practices"]

/-- The five option lines displayed by the clarification prompt
(source lines 250-254): `options[0]` .. `options[3]`, and
`options[4] if len(options) > 4 else "Other specific information"`.
Every list reaching this point has at least four entries, so the `getD`
defaults are never used (Python indexing would raise otherwise). -/
def displayed_options (options : List String) : List String :=
  [options.getD 0 "", options.getD 1 "", options.getD 2 "", options.getD 3 "",
   if options.length > 4 then options.getD 4 "" else "Other specific information"]

/-- The `clarification_prompt` f-string of `generate_clarification_query`
(source lines 246-257), with the interpolated topic (the already computed
first sentence of the intent instruction) and the five displayed options. -/
def mk_clarification_prompt (topic : String) (d : List String) : String :=
  "\n    To better assist you with your query about " ++ topic ++
  ", could you please specify what aspect you\x27re most interested in? \n\n    You can choose from options like:\n    1. " ++
  d.getD 0 "" ++ "\n    2. " ++ d.getD 1 "" ++ "\n    3. " ++ d.getD 2 "" ++
  "\n    4. " ++ d.getD 3 "" ++ "\n    5. " ++ d.getD 4 "" ++
  "\n\n    Or feel free to ask about any other specific information you need.\n    "

/-- `generate_clarification_query` (source lines 230-258).  The function
first computes `options` (with the fallback default), then builds the
f-string whose first interpolation is
`INTENT_INSTRUCTIONS[intent].split('.')[0].strip()`: when `intent` is not
a key of `INTENT_INSTRUCTIONS` (that is, not in 1..10, including `None`),
this subscript raises `KeyError` before the prompt - and in particular the
fallback option list - can appear in any output. -/
def generate_clarification_query (intent : Option Nat) : Except PyExn String :=
  let options := intent_options_get intent
  match instrSubscript intent with
  | none => Except.error PyExn.keyError
  | some instr =>
      Except.ok (mk_clarification_prompt
        (String.mk (pyStrip ((splitOnDot instr.data).headD [])))
        (displayed_options options))

/-- The `st.error` text of `process_query` (source line 294); the appended
`str(e)` exception detail is elided. -/
def pq_error_msg : String := "An error occurred while processing your query: "

/-- The string returned by `process_query` on failure (source line 296). -/
def pq_apology : String :=
  "I\x27m sorry, but I encountered an error while processing your query. Could you please try rephrasing your question?"

/-- `process_query` (source lines 285-296).  The oracle is the completion
call inside `identify_intent`.  Mutation order in the source: on success,
`need_clarification := True` (l.288), `clarification_query` (l.289),
`original_query` (l.290), `intent` (l.291).  Line 289 raises `KeyError`
whenever the parsed intent is not in 1..10 (see
`generate_clarification_query`); the `except` block then shows `st.error`,
sets `need_clarification := False` (undoing the line-288 write, the only
one already committed) and returns the apology string. -/
def process_query (s : SessionState) (query : String)
    (completion : Except PyExn String) :
    SessionState × List UiOut × Option String :=
  match completion with
  | Except.error _ =>
      ({ s with need_clarification := false }, [UiOut.err pq_error_msg], some pq_apology)
  | Except.ok content =>
      let intent := identify_intent content
      match generate_clarification_query intent with
      | Except.error _ =>
          ({ s with need_clarification := false }, [UiOut.err pq_error_msg], some pq_apology)
      | Except.ok prompt =>
          ({ s with need_clarification := true
                    clarification_query := prompt
                    original_query := query
                    intent := intent },
           [], none)

/-- `save_chat_history` (source lines 299-300): append one entry. -/
def save_chat_history (s : SessionState) (query answer : String) : SessionState :=
  { s with chat_history := s.chat_history ++ [{ query := query, answer := answer }] }

/-- The "Get Answer" button handler (source lines 342-355).  The guard
`if user_query:` is Python truthiness, i.e. the non-empty-string test; the
empty case emits only `st.warning` and never reaches `process_query` (and
hence no external call and no state write). -/
def get_answer (s : SessionState) (user_query : String)
    (completion : Except PyExn String) : SessionState × List UiOut :=
  if user_query = "" then
    (s, [UiOut.warn "Please enter a question before searching."])
  else
    let r := process_query s user_query completion
    match r.2.2 with
    | none => (r.1, r.2.1 ++ [UiOut.followUp r.1.clarification_query])
    | some msg => (r.1, r.2.1 ++ [UiOut.text msg])

/-- The "Submit Clarification" button handler (source lines 357-382).  The
widget only exists while `need_clarification` is truthy (line 357), modelled
by the outer guard.  Inside the `try`, the code computes
`get_intent_instruction`, retrieves context for the original query, then for
the combined query (`process_clarification`), and calls
`generate_final_response`; all of these are external calls whose combined
outcome is the `synth` oracle (ok = the stripped final answer).  None of the
session fields is written before the `except` boundary; on success the code
appends one history entry and resets only `need_clarification` (lines
374-377) - `original_query`, `intent` and `clarification_query` are left in
place.  On exception, `handle_error` shows `st.error` (line 312) and no
field changes. -/
def submit_clarification (s : SessionState) (clarification_input : String)
    (synth : Except PyExn String) : SessionState × List UiOut :=
  if s.need_clarification = false then (s, [])
  else if clarification_input = "" then
    (s, [UiOut.warn "Please provide a clarification before submitting."])
  else
    match synth with
    | Except.error _ => (s, [UiOut.err "An error occurred: "])
    | Except.ok final_answer =>
        ({ (save_chat_history s
              (s.original_query ++ " (Clarification: " ++ clarification_input ++ ")")
              final_answer) with need_clarification := false },
         [UiOut.text final_answer])

/-- Python `range(0, stop, step)` for positive `step`: the multiples of
`step` below `stop`; the element count is the ceiling of `stop / step`. -/
def pyRange (stop step : Nat) : List Nat :=
  (List.range ((stop + step - 1) / step)).map (fun k => k * step)

/-- The chunking expression of `upsert_to_pinecone` (source line 171):
`[text[i:i+8000] for i in range(0, len(text), 8000)]`, with the text as a
character list and the Python slice `text[i:i+8000]` as drop-then-take. -/
def docChunks (text : List Char) : List (List Char) :=
  (pyRange text.length 8000).map (fun i => (text.drop i).take 8000)

/-- The chunk metadata dict built by `upsert_to_pinecone`
(source lines 174-179), minus the embedding vector. -/
structure ChunkMeta where
  file_name : String
  file_id : String
  chunk_id : Nat
  chunk_text : List Char
deriving DecidableEq

/-- Modelled from the spec: the external vector store, absent from src/,
is a key-value index; each key holds the latest upserted vector/metadata
pair (spec 4.3: `upsert` is an idempotent overwrite keyed by id). -/
def Store (V : Type) : Type := String → Option (V × ChunkMeta)

/-- Modelled from the spec: one `index.upsert` call (spec 4.3) overwrites
the entry of the given id, leaving all other ids unchanged. -/
def store_upsert {V : Type} (st : Store V) (key : String) (v : V × ChunkMeta) :
    Store V :=
  fun k => if k = key then some v else st k

/-- Apply a list of upserts in order (the ingestion loop body). -/
def applyUpserts {V : Type} (l : List (String × (V × ChunkMeta))) (st : Store V) :
    Store V :=
  l.foldl (fun acc p => store_upsert acc p.1 p.2) st

/-- The sequence of `(key, value)` pairs produced by the loop of
`upsert_to_pinecone` (source lines 172-181): for `i, chunk` in
`enumerate(chunks)`, the key is the f-string `f"{file_id}_{i}"` and the
value is the chunk embedding plus the metadata dict.  `embed` is the
external `get_embedding` call; `time.sleep(1)` has no state effect. -/
def ingest_upserts {V : Type} (embed : List Char → V) (text : List Char)
    (file_name file_id : String) : List (String × (V × ChunkMeta)) :=
  (docChunks text).enum.map (fun p =>
    (file_id ++ "_" ++ Nat.repr p.1,
     (embed p.2,
      { file_name := file_name, file_id := file_id,
        chunk_id := p.1, chunk_text := p.2 })))

/-- `upsert_to_pinecone` (source lines 170-181): run the ingestion loop
against the store. -/
def upsert_to_pinecone {V : Type} (embed : List Char → V) (st : Store V)
    (text : List Char) (file_name file_id : String) : Store V :=
  applyUpserts (ingest_upserts embed text file_name file_id) st

/-- The upsert keys of one ingestion run: chunk `i` of the document gets
the key `file_id ++ "_" ++ i` (source line 180). -/
def upsert_keys (file_id : String) (text : List Char) : List String :=
  (List.range (docChunks text).length).map (fun i => file_id ++ "_" ++ Nat.repr i)

/-- Executable substring test over character lists (used to state that the
clarification prompt contains its numbered option lines). -/
def hasSubList (pat : List Char) : List Char → Bool
  | [] => pat.isEmpty
  | c :: cs => pat.isPrefixOf (c :: cs) || hasSubList pat cs

/-- Executable substring test over strings. -/
def hasSubStr (pat s : String) : Bool :=
  hasSubList pat.data s.data

/-- The state-machine invariant of the spec, in the direction the code
maintains: whenever the session is awaiting clarification, the pending
query is non-empty and the pending intent is an in-range intent. -/
def state_inv (s : SessionState) : Prop :=
  s.need_clarification = true →
    (s.original_query ≠ "" ∧ ∃ n, s.intent = some n ∧ 1 ≤ n ∧ n ≤ 10)

/-- The value held by a key after a list of keyed writes: the last write
to that key wins, `none` if the key is never written. -/
def lastVal {α : Type} (k : String) : List (String × α) → Option α
  | [] => none
  | a :: t =>
      match lastVal k t with
      | some v => some v
      | none => if a.1 = k then some a.2 else none

lemma firstRun_append_no_digit (pre l : List Char)
    (h : ∀ c ∈ pre, c.isDigit = false) :
    firstRun (pre ++ l) = firstRun l := by
  induction pre with
  | nil => rfl
  | cons c cs ih =>
      have hc : c.isDigit = false := h c (List.mem_cons_self c cs)
      simp only [List.cons_append, firstRun, hc, if_neg Bool.false_ne_true]
      exact ih (fun x hx => h x (List.mem_cons_of_mem c hx))

lemma takeWhile_digits_append (ds mid : List Char)
    (hds : ∀ c ∈ ds, c.isDigit = true)
    (hmid : ∀ c ∈ mid.take 1, c.isDigit = false) :
    (ds ++ mid).takeWhile Char.isDigit = ds := by
  induction ds with
  | nil =>
      simp only [List.nil_append]
      cases mid with
      | nil => rfl
      | cons m ms =>
          have hm : m.isDigit = false := hmid m (by simp)
          simp [List.takeWhile, hm]
  | cons d ds ih =>
      have hd : d.isDigit = true := hds d (List.mem_cons_self d ds)
      simp only [List.cons_append, List.takeWhile, hd]
      exact congrArg (d :: ·) (ih (fun x hx => hds x (List.mem_cons_of_mem d hx)))

lemma firstRun_cons_digit (d : Char) (l : List Char) (hd : d.isDigit = true) :
    firstRun (d :: l) = some (d :: l.takeWhile Char.isDigit) := by
  simp [firstRun, hd]

lemma firstRun_no_digit (l : List Char) (h : ∀ c ∈ l, c.isDigit = false) :
    firstRun l = none := by
  induction l with
  | nil => rfl
  | cons c cs ih =>
      have hc : c.isDigit = false := h c (List.mem_cons_self c cs)
      simp only [firstRun, hc, if_neg Bool.false_ne_true]
      exact ih (fun x hx => h x (List.mem_cons_of_mem c hx))

/-- C1 (counterexample).  The claim says that on a response text whose
first integer is out of the range 1..10 - for example `"14"` - the
classifier returns the default intent 5, and that a digit-free text also
yields 5.  In the code `identify_intent` has no range check and no
default: it returns 14 on `"14"` and Python `None` on a digit-free text. -/
theorem C1_counterexample :
    identify_intent "14" = some 14 ∧ identify_intent "14" ≠ some 5 ∧
      identify_intent "No digits here!" ≠ some 5 := by
  refine ⟨by decide, by decide, by decide⟩

/-- C1 (amended).  `identify_intent` returns the number denoted by the
first maximal digit run of the stripped response text whenever one exists,
with no range check and no fallback (so out-of-range numbers are returned
as they are), and returns `none` when the text contains no digit.  In
particular it returns 3 on `"3 - Raider Success Hub"`, 14 (not 5) on
`"14"`, and `none` (not 5) on a digit-free text. -/
theorem C1_amended_identify_intent :
    (∀ (s : String) (pre digits mid : List Char),
        pyStrip s.data = pre ++ digits ++ mid →
        (∀ c ∈ pre, c.isDigit = false) →
        digits ≠ [] →
        (∀ c ∈ digits, c.isDigit = true) →
        (∀ c ∈ mid.take 1, c.isDigit = false) →
        identify_intent s = some (natOfDigits digits))
    ∧ (∀ s : String, (∀ c ∈ pyStrip s.data, c.isDigit = false) →
        identify_intent s = none)
    ∧ identify_intent "3 - Raider Success Hub" = some 3
    ∧ identify_intent "14" = some 14
    ∧ identify_intent "No digits here!" = none := by
  refine ⟨?_, ?_, by decide, by decide, by decide⟩
  · intro s pre digits mid hdecomp hpre hne hdig hmid
    unfold identify_intent
    rw [hdecomp]
    cases digits with
    | nil => exact absurd rfl hne
    | cons d ds =>
        have hd : d.isDigit = true := hdig d (List.mem_cons_self d ds)
        have htw : (ds ++ mid).takeWhile Char.isDigit = ds :=
          takeWhile_digits_append ds mid
            (fun x hx => hdig x (List.mem_cons_of_mem d hx)) hmid
        rw [List.append_assoc, firstRun_append_no_digit pre _ hpre,
          (show (d :: ds) ++ mid = d :: (ds ++ mid) from rfl),
          firstRun_cons_digit d _ hd, htw]
        rfl
  · intro s h
    unfold identify_intent
    rw [firstRun_no_digit _ h]
    rfl

/-- Witness for `C1_amended_identify_intent`: the stripped text `"7!"`
decomposes as `[] ++ ['7'] ++ ['!']`, so the classifier returns 7. -/
theorem C1_witness : identify_intent "7!" = some (natOfDigits ['7']) :=
  C1_amended_identify_intent.1 "7!" [] ['7'] ['!']
    (by decide) (by decide) (by decide) (by decide) (by decide)

lemma INTENT_INSTRUCTIONS_some_range {n : Nat} {s : String}
    (h : INTENT_INSTRUCTIONS n = some s) : 1 ≤ n ∧ n ≤ 10 := by
  unfold INTENT_INSTRUCTIONS at h
  split_ifs at h <;> omega

lemma intent_options_isSome_of_range {n : Nat} (h1 : 1 ≤ n) (h2 : n ≤ 10) :
    (intent_options n).isSome = true := by
  interval_cases n <;> rfl

lemma gcq_error_of_not_range (i : Option Nat)
    (h : ∀ n, i = some n → ¬(1 ≤ n ∧ n ≤ 10)) :
    generate_clarification_query i = Except.error PyExn.keyError := by
  cases i with
  | none => rfl
  | some n =>
      cases hI : INTENT_INSTRUCTIONS n with
      | none => simp [generate_clarification_query, instrSubscript, hI]
      | some s => exact absurd (INTENT_INSTRUCTIONS_some_range hI) (h n rfl)

lemma gcq_ok_range {i : Option Nat} {p : String}
    (h : generate_clarification_query i = Except.ok p) :
    ∃ n, i = some n ∧ 1 ≤ n ∧ n ≤ 10 ∧ (intent_options n).isSome = true := by
  cases i with
  | none => simp [generate_clarification_query, instrSubscript] at h
  | some n =>
      cases hI : INTENT_INSTRUCTIONS n with
      | none => simp [generate_clarification_query, instrSubscript, hI] at h
      | some s =>
          obtain ⟨h1, h2⟩ := INTENT_INSTRUCTIONS_some_range hI
          exact ⟨n, rfl, h1, h2, intent_options_isSome_of_range h1 h2⟩

lemma gcq_ok_of_range {n : Nat} (h1 : 1 ≤ n) (h2 : n ≤ 10) :
    ∃ p, generate_clarification_query (some n) = Except.ok p := by
  interval_cases n <;> exact ⟨_, rfl⟩

lemma get_answer_external_error (s : SessionState) (q : String) (e : PyExn)
    (hq : q ≠ "") :
    get_answer s q (Except.error e)
      = ({ s with need_clarification := false },
         [UiOut.err pq_error_msg, UiOut.text pq_apology]) := by
  simp [get_answer, hq, process_query]

lemma get_answer_bad_intent (s : SessionState) (q txt : String) (hq : q ≠ "")
    (h : ∀ n, identify_intent txt = some n → ¬(1 ≤ n ∧ n ≤ 10)) :
    get_answer s q (Except.ok txt)
      = ({ s with need_clarification := false },
         [UiOut.err pq_error_msg, UiOut.text pq_apology]) := by
  simp [get_answer, hq, process_query, gcq_error_of_not_range _ h]

lemma get_answer_ok (s : SessionState) (q txt p : String) (hq : q ≠ "")
    (hp : generate_clarification_query (identify_intent txt) = Except.ok p) :
    get_answer s q (Except.ok txt)
      = ({ s with need_clarification := true
                  clarification_query := p
                  original_query := q
                  intent := identify_intent txt },
         [UiOut.followUp p]) := by
  simp [get_answer, hq, process_query, hp]

/-- C10.  For every intent value outside 1..10 - including the `None` that
`identify_intent` yields on a digit-free completion - the dict subscript
`INTENT_INSTRUCTIONS[intent]` at the head of the clarification f-string
raises `KeyError`, so `generate_clarification_query` fails; consequently
every successfully produced prompt comes from an in-range intent whose
curated option list exists, making the built-in fallback list unreachable
in any output; and the failure propagates to the `except` handler of
`process_query`, which shows the error, resets `need_clarification` and
returns the apology. -/
theorem C10_fallback_unreachable :
    (∀ i : Option Nat, (∀ n, i = some n → ¬(1 ≤ n ∧ n ≤ 10)) →
        generate_clarification_query i = Except.error PyExn.keyError)
    ∧ (∀ (i : Option Nat) (p : String),
        generate_clarification_query i = Except.ok p →
        ∃ n, i = some n ∧ 1 ≤ n ∧ n ≤ 10 ∧ (intent_options n).isSome = true)
    ∧ (∀ (s : SessionState) (q txt : String), q ≠ "" →
        (∀ n, identify_intent txt = some n → ¬(1 ≤ n ∧ n ≤ 10)) →
        get_answer s q (Except.ok txt)
          = ({ s with need_clarification := false },
             [UiOut.err pq_error_msg, UiOut.text pq_apology])) :=
  ⟨gcq_error_of_not_range,
   fun _ _ h => gcq_ok_range h,
   get_answer_bad_intent⟩

/-- Witness for `C10_fallback_unreachable`: the out-of-range intent 14
(parsed from the response `"14"`) raises `KeyError`, and the Get Answer
handler surfaces it as the generic error with the flag reset. -/
theorem C10_witness :
    generate_clarification_query (some 14) = Except.error PyExn.keyError
    ∧ get_answer init_session_state "What clubs exist?" (Except.ok "14")
        = ({ init_session_state with need_clarification := false },
           [UiOut.err pq_error_msg, UiOut.text pq_apology]) :=
  ⟨C10_fallback_unreachable.1 (some 14)
      (fun n hn => by cases hn; decide),
   C10_fallback_unreachable.2.2 init_session_state "What clubs exist?" "14"
      (by decide)
      (fun n hn => by
        have h14 : identify_intent "14" = some 14 := by decide
        rw [h14] at hn; cases hn; decide)⟩

lemma get_answer_empty (s : SessionState) (o : Except PyExn String) :
    get_answer s "" o = (s, [UiOut.warn "Please enter a question before searching."]) := by
  simp [get_answer]

lemma get_answer_gcq_error (s : SessionState) (q txt : String) (ex : PyExn)
    (hq : q ≠ "")
    (hg : generate_clarification_query (identify_intent txt) = Except.error ex) :
    get_answer s q (Except.ok txt)
      = ({ s with need_clarification := false },
         [UiOut.err pq_error_msg, UiOut.text pq_apology]) := by
  simp [get_answer, hq, process_query, hg]

lemma submit_not_awaiting (s : SessionState) (i : String) (o : Except PyExn String)
    (h : s.need_clarification = false) :
    submit_clarification s i o = (s, []) := by
  simp [submit_clarification, h]

lemma submit_empty (s : SessionState) (o : Except PyExn String)
    (h : s.need_clarification = true) :
    submit_clarification s "" o
      = (s, [UiOut.warn "Please provide a clarification before submitting."]) := by
  simp [submit_clarification, h]

lemma submit_error (s : SessionState) (i : String) (e : PyExn)
    (h : s.need_clarification = true) (hi : i ≠ "") :
    submit_clarification s i (Except.error e)
      = (s, [UiOut.err "An error occurred: "]) := by
  simp [submit_clarification, h, hi]

lemma submit_ok (s : SessionState) (i ans : String)
    (h : s.need_clarification = true) (hi : i ≠ "") :
    submit_clarification s i (Except.ok ans)
      = ({ s with
            need_clarification := false
            chat_history := s.chat_history
              ++ [{ query := s.original_query ++ " (Clarification: " ++ i ++ ")",
                    answer := ans }] },
         [UiOut.text ans]) := by
  simp [submit_clarification, save_chat_history, h, hi]

/-- C2 (counterexample).  The claim asserts the iff-invariant
"`need_clarification` = true iff both `original_query` and `intent` are
set" after every transition, and that the final-answer transition clears
the pending fields.  Running the machine from the initial state through a
successful query (`process_query`) and a successful clarification leaves
`need_clarification = false` while `original_query = "q"` and
`intent = some 1` are still set: the Submit handler resets only the flag
(source line 377), so the machine reaches Idle with the pending query
set and the iff fails. -/
theorem C2_counterexample :
    (submit_clarification ((get_answer init_session_state "q" (Except.ok "1")).1)
        "c" (Except.ok "a")).1.need_clarification = false
    ∧ (submit_clarification ((get_answer init_session_state "q" (Except.ok "1")).1)
        "c" (Except.ok "a")).1.original_query = "q"
    ∧ (submit_clarification ((get_answer init_session_state "q" (Except.ok "1")).1)
        "c" (Except.ok "a")).1.intent = some 1 :=
  ⟨by decide, by decide, by decide⟩

/-- C2 (amended).  The direction of the invariant the code maintains:
after every transition, if `need_clarification` is true then
`original_query` is a non-empty string and `intent` is an in-range intent
(1..10).  The converse fails because the final-answer transition resets
only the flag and leaves the pending fields set (see
`C2_counterexample`): the flag alone gates the clarification UI. -/
theorem C2_amended_invariant :
    state_inv init_session_state
    ∧ (∀ (s : SessionState) (q : String) (o : Except PyExn String),
        state_inv s → state_inv (get_answer s q o).1)
    ∧ (∀ (s : SessionState) (i : String) (o : Except PyExn String),
        state_inv s → state_inv (submit_clarification s i o).1) := by
  refine ⟨fun h => by simp [init_session_state] at h, ?_, ?_⟩
  · intro s q o hs
    by_cases hq : q = ""
    · subst hq; rw [get_answer_empty]; exact hs
    · cases o with
      | error e =>
          rw [get_answer_external_error s q e hq]
          intro h; simp at h
      | ok txt =>
          cases hg : generate_clarification_query (identify_intent txt) with
          | error ex =>
              rw [get_answer_gcq_error s q txt ex hq hg]
              intro h; simp at h
          | ok p =>
              rw [get_answer_ok s q txt p hq hg]
              intro _
              obtain ⟨n, hn, h1, h2, _⟩ := gcq_ok_range hg
              exact ⟨hq, n, hn, h1, h2⟩
  · intro s i o hs
    by_cases hflag : s.need_clarification = true
    · by_cases hi : i = ""
      · subst hi; rw [submit_empty s o hflag]; exact hs
      · cases o with
        | error e => rw [submit_error s i e hflag hi]; exact hs
        | ok ans =>
            rw [submit_ok s i ans hflag hi]
            intro h; simp at h
    · have hflag' : s.need_clarification = false := by
        revert hflag; cases s.need_clarification <;> simp
      rw [submit_not_awaiting s i o hflag']; exact hs

/-- Witness for `C2_amended_invariant`: the invariant holds after a
successful Idle-to-AwaitingClarification transition from the initial
state. -/
theorem C2_witness :
    state_inv ((get_answer init_session_state "hi" (Except.ok "2")).1) :=
  C2_amended_invariant.2.1 init_session_state "hi" (Except.ok "2")
    C2_amended_invariant.1

/-- C3 (counterexample).  The claim asserts that after every caught
failure the session returns to a state consistent with no pending
clarification.  An external-service failure during the Submit
Clarification handler is caught and surfaced (`handle_error`), but the
session stays exactly as it was: still awaiting clarification
(`need_clarification = true`), with the pending query and intent set. -/
theorem C3_counterexample :
    (submit_clarification
        { need_clarification := true, clarification_query := "p",
          intent := some 1, intent_instruction := "", pinecone_context := "",
          original_query := "q", chat_history := [] }
        "c" (Except.error PyExn.externalServiceError)).1.need_clarification = true
    ∧ (submit_clarification
        { need_clarification := true, clarification_query := "p",
          intent := some 1, intent_instruction := "", pinecone_context := "",
          original_query := "q", chat_history := [] }
        "c" (Except.error PyExn.externalServiceError)).2
      = [UiOut.err "An error occurred: "] :=
  ⟨by decide, by decide⟩

/-- C3 (amended).  Every failure raised during a user-triggered transition
is caught and surfaced as a generic error message, and no half-committed
mutation is left behind: in `process_query` (both the external-failure and
the bad-intent `KeyError` path) the handler resets `need_clarification` to
false - the only write committed before the raise - and every other field
keeps its previous value; in the Submit handler the catch occurs before
any state write, so the entire previous state remains intact - which,
contrary to the claim, means the session can stay in AwaitingClarification
after the failure (see `C3_counterexample`). -/
theorem C3_amended_error_handling :
    (∀ (s : SessionState) (q : String) (e : PyExn), q ≠ "" →
        get_answer s q (Except.error e)
          = ({ s with need_clarification := false },
             [UiOut.err pq_error_msg, UiOut.text pq_apology]))
    ∧ (∀ (s : SessionState) (q txt : String) (ex : PyExn), q ≠ "" →
        generate_clarification_query (identify_intent txt) = Except.error ex →
        get_answer s q (Except.ok txt)
          = ({ s with need_clarification := false },
             [UiOut.err pq_error_msg, UiOut.text pq_apology]))
    ∧ (∀ (s : SessionState) (i : String) (e : PyExn),
        s.need_clarification = true → i ≠ "" →
        submit_clarification s i (Except.error e)
          = (s, [UiOut.err "An error occurred: "])) :=
  ⟨get_answer_external_error,
   fun s q txt ex hq hg => get_answer_gcq_error s q txt ex hq hg,
   fun s i e h hi => submit_error s i e h hi⟩

/-- Witness for `C3_amended_error_handling`: an external failure while
processing a fresh non-empty query resets the flag and reports the error. -/
theorem C3_witness :
    get_answer init_session_state "why" (Except.error PyExn.externalServiceError)
      = ({ init_session_state with need_clarification := false },
         [UiOut.err pq_error_msg, UiOut.text pq_apology]) :=
  C3_amended_error_handling.1 init_session_state "why"
    PyExn.externalServiceError (by decide)

/-- C9 (confirmed).  An empty query or empty clarification is rejected by
the truthiness guard before the protected block: the handler result is the
same for every oracle value (so no external call outcome is consulted), a
validation warning is the only output, and the returned state is exactly
the previous state - no field of the conversation state or chat history
changes. -/
theorem C9_empty_input :
    (∀ (s : SessionState) (o : Except PyExn String),
        get_answer s "" o
          = (s, [UiOut.warn "Please enter a question before searching."]))
    ∧ (∀ (s : SessionState) (o : Except PyExn String),
        s.need_clarification = true →
        submit_clarification s "" o
          = (s, [UiOut.warn "Please provide a clarification before submitting."])) :=
  ⟨fun s o => get_answer_empty s o,
   fun s o h => submit_empty s o h⟩

/-- Witness for `C9_empty_input`: an empty clarification while awaiting
clarification leaves the state untouched and warns, even when the oracle
would have failed. -/
theorem C9_witness :
    submit_clarification
        { need_clarification := true, clarification_query := "p",
          intent := some 3, intent_instruction := "", pinecone_context := "",
          original_query := "q", chat_history := [] }
        "" (Except.error PyExn.externalServiceError)
      = ({ need_clarification := true, clarification_query := "p",
           intent := some 3, intent_instruction := "", pinecone_context := "",
           original_query := "q", chat_history := [] },
         [UiOut.warn "Please provide a clarification before submitting."]) :=
  C9_empty_input.2
    { need_clarification := true, clarification_query := "p",
      intent := some 3, intent_instruction := "", pinecone_context := "",
      original_query := "q", chat_history := [] }
    (Except.error PyExn.externalServiceError) rfl

/-- C7 (confirmed).  When a non-empty clarification is submitted while
awaiting clarification and synthesis succeeds, exactly one entry is
appended to the chat history: its query field is literally the original
query followed by " (Clarification: ", the submitted text and ")" (hence
it contains both required substrings), and its answer field is the
synthesized response.  Moreover every transition of both handlers only
ever appends to the history - entries are never removed or reordered, and
`display_chat_history` shows the list in storage order, oldest first. -/
theorem C7_history_append :
    (∀ (s : SessionState) (i ans : String),
        s.need_clarification = true → i ≠ "" →
        (submit_clarification s i (Except.ok ans)).1.chat_history
          = s.chat_history
            ++ [{ query := s.original_query ++ " (Clarification: " ++ i ++ ")",
                  answer := ans }])
    ∧ (∀ (s : SessionState) (q : String) (o : Except PyExn String),
        ∃ t, (get_answer s q o).1.chat_history = s.chat_history ++ t)
    ∧ (∀ (s : SessionState) (i : String) (o : Except PyExn String),
        ∃ t, (submit_clarification s i o).1.chat_history = s.chat_history ++ t) := by
  refine ⟨?_, ?_, ?_⟩
  · intro s i ans h hi
    rw [submit_ok s i ans h hi]
  · intro s q o
    by_cases hq : q = ""
    · subst hq; exact ⟨[], by rw [get_answer_empty]; simp⟩
    · cases o with
      | error e => exact ⟨[], by rw [get_answer_external_error s q e hq]; simp⟩
      | ok txt =>
          cases hg : generate_clarification_query (identify_intent txt) with
          | error ex => exact ⟨[], by rw [get_answer_gcq_error s q txt ex hq hg]; simp⟩
          | ok p => exact ⟨[], by rw [get_answer_ok s q txt p hq hg]; simp⟩
  · intro s i o
    by_cases hflag : s.need_clarification = true
    · by_cases hi : i = ""
      · subst hi; exact ⟨[], by rw [submit_empty s o hflag]; simp⟩
      · cases o with
        | error e => exact ⟨[], by rw [submit_error s i e hflag hi]; simp⟩
        | ok ans =>
            exact ⟨[{ query := s.original_query ++ " (Clarification: " ++ i ++ ")",
                      answer := ans }],
                   by rw [submit_ok s i ans hflag hi]⟩
    · have hflag' : s.need_clarification = false := by
        revert hflag; cases s.need_clarification <;> simp
      exact ⟨[], by rw [submit_not_awaiting s i o hflag']; simp⟩

/-- Witness for `C7_history_append`: one concrete successful clarification
appends exactly the expected entry. -/
theorem C7_witness :
    (submit_clarification
        { need_clarification := true, clarification_query := "p",
          intent := some 2, intent_instruction := "", pinecone_context := "",
          original_query := "How do I declare a major in Biology?",
          chat_history := [] }
        "What forms do I need?" (Except.ok "final answer")).1.chat_history
      = [] ++ [{ query := "How do I declare a major in Biology?"
                    ++ " (Clarification: " ++ "What forms do I need?" ++ ")",
                 answer := "final answer" }] :=
  C7_history_append.1
    { need_clarification := true, clarification_query := "p",
      intent := some 2, intent_instruction := "", pinecone_context := "",
      original_query := "How do I declare a major in Biology?",
      chat_history := [] }
    "What forms do I need?" "final answer" rfl (by decide)

/-- C8 (confirmed).  A new non-empty top-level query processed successfully
overwrites the pending query, intent and clarification prompt with the
values computed for the new query alone, whatever the previous state was -
including a state already awaiting clarification with older pending
values; nothing is queued or merged, and the chat history is untouched
(the resulting state differs from the previous one only in the four
overwritten fields). -/
theorem C8_overwrite (s : SessionState) (q txt : String) (n : Nat)
    (hq : q ≠ "") (hn : identify_intent txt = some n)
    (h1 : 1 ≤ n) (h2 : n ≤ 10) :
    ∃ p, generate_clarification_query (some n) = Except.ok p ∧
      (get_answer s q (Except.ok txt)).1
        = { s with need_clarification := true
                   clarification_query := p
                   original_query := q
                   intent := some n } := by
  obtain ⟨p, hp⟩ := gcq_ok_of_range h1 h2
  have hp' : generate_clarification_query (identify_intent txt) = Except.ok p := by
    rw [hn]; exact hp
  refine ⟨p, hp, ?_⟩
  rw [get_answer_ok s q txt p hq hp', hn]

/-- Witness for `C8_overwrite`: a new query submitted while an older
query/intent pair is still pending overwrites all pending fields. -/
theorem C8_witness :
    ∃ p, generate_clarification_query (some 2) = Except.ok p ∧
      (get_answer
          { need_clarification := true, clarification_query := "old prompt",
            intent := some 9, intent_instruction := "", pinecone_context := "",
            original_query := "old query", chat_history := [] }
          "new query" (Except.ok "2")).1
        = { need_clarification := true, clarification_query := p,
            intent := some 2, intent_instruction := "", pinecone_context := "",
            original_query := "new query", chat_history := [] } :=
  C8_overwrite
    { need_clarification := true, clarification_query := "old prompt",
      intent := some 9, intent_instruction := "", pinecone_context := "",
      original_query := "old query", chat_history := [] }
    "new query" "2" 2 (by decide) (by decide) (by decide) (by decide)

/-- C5 (confirmed).  For every intent in 1..10,
`generate_clarification_query` is a pure function of the two static tables
(in this embedding it takes no oracle: no external call).  It succeeds and
returns a prompt whose numbered list lines "1." to "5." each carry a
non-empty option: the first four are the intent's curated options (between
4 and 5 of them, none empty), and the fifth is the curated fifth when the
list has five entries and the default "Other specific information" when it
has only four; the prompt ends with the open invitation to ask about any
other specific information. -/
theorem C5_clarification_options (n : Nat) (h1 : 1 ≤ n) (h2 : n ≤ 10) :
    ∃ opts, intent_options n = some opts
      ∧ (opts.length = 4 ∨ opts.length = 5)
      ∧ (∀ o ∈ opts, o ≠ "")
      ∧ ∃ p, generate_clarification_query (some n) = Except.ok p
        ∧ (∀ i, i < 5 →
            hasSubStr (Nat.repr (i + 1) ++ ". " ++ (displayed_options opts).getD i "") p
              = true)
        ∧ (displayed_options opts).take 4 = opts.take 4
        ∧ (∀ o ∈ displayed_options opts, o ≠ "")
        ∧ (opts.length = 4 →
            (displayed_options opts).getD 4 "" = "Other specific information")
        ∧ (opts.length = 5 →
            (displayed_options opts).getD 4 "" = opts.getD 4 "")
        ∧ hasSubStr "Or feel free to ask about any other specific information you need." p
            = true := by
  interval_cases n <;>
    exact ⟨_, rfl, by decide, by decide, _, rfl, by decide, by decide, by decide,
           by decide, by decide, by decide⟩

/-- Witness for `C5_clarification_options` at intent 9, whose curated list
has exactly four entries, so the displayed fifth option is the default. -/
theorem C5_witness :
    ∃ opts, intent_options 9 = some opts
      ∧ (opts.length = 4 ∨ opts.length = 5)
      ∧ (∀ o ∈ opts, o ≠ "")
      ∧ ∃ p, generate_clarification_query (some 9) = Except.ok p
        ∧ (∀ i, i < 5 →
            hasSubStr (Nat.repr (i + 1) ++ ". " ++ (displayed_options opts).getD i "") p
              = true)
        ∧ (displayed_options opts).take 4 = opts.take 4
        ∧ (∀ o ∈ displayed_options opts, o ≠ "")
        ∧ (opts.length = 4 →
            (displayed_options opts).getD 4 "" = "Other specific information")
        ∧ (opts.length = 5 →
            (displayed_options opts).getD 4 "" = opts.getD 4 "")
        ∧ hasSubStr "Or feel free to ask about any other specific information you need." p
            = true :=
  C5_clarification_options 9 (by decide) (by decide)

lemma docChunks_nil : docChunks [] = [] := rfl

lemma docChunks_cons (l : List Char) (hl : l ≠ []) :
    docChunks l = l.take 8000 :: docChunks (l.drop 8000) := by
  have hL : 1 ≤ l.length := List.length_pos.mpr hl
  have hcount : (l.length + 8000 - 1) / 8000
      = ((l.drop 8000).length + 8000 - 1) / 8000 + 1 := by
    rw [List.length_drop]; omega
  unfold docChunks pyRange
  rw [List.map_map, List.map_map, hcount, List.range_succ_eq_map,
    List.map_cons, List.map_map]
  refine congrArg₂ List.cons ?_ ?_
  · simp
  · refine List.map_congr_left ?_
    intro k _
    simp only [Function.comp]
    rw [List.drop_drop]
    have hix : k.succ * 8000 = 8000 + k * 8000 := by omega
    rw [hix]

/-- C4 (confirmed).  The chunking expression of `upsert_to_pinecone` with
its fixed chunk size of 8000 characters produces an ordered sequence of
non-overlapping substrings: their concatenation reproduces the input text
exactly, every chunk except possibly the last has length exactly 8000, no
chunk is empty, and the sequence is empty iff the text is empty.  The
chunker is a pure function of the text, so the same input always yields
the same chunk sequence. -/
theorem C4_chunker (text : List Char) :
    (docChunks text).flatten = text
    ∧ (∀ c ∈ (docChunks text).dropLast, c.length = 8000)
    ∧ (∀ c ∈ docChunks text, c ≠ [])
    ∧ (docChunks text = [] ↔ text = []) := by
  suffices H : ∀ (N : Nat) (l : List Char), l.length ≤ N →
      (docChunks l).flatten = l
      ∧ (∀ c ∈ (docChunks l).dropLast, c.length = 8000)
      ∧ (∀ c ∈ docChunks l, c ≠ [])
      ∧ (docChunks l = [] ↔ l = []) from H text.length text le_rfl
  intro N
  induction N with
  | zero =>
      intro l hl
      have h0 : l = [] := List.eq_nil_of_length_eq_zero (Nat.le_zero.mp hl)
      subst h0
      refine ⟨rfl, ?_, ?_, by simp [docChunks_nil]⟩ <;>
        intro c hc <;> simp [docChunks_nil] at hc
  | succ N ih =>
      intro l hl
      by_cases hemp : l = []
      · subst hemp
        refine ⟨rfl, ?_, ?_, by simp [docChunks_nil]⟩ <;>
          intro c hc <;> simp [docChunks_nil] at hc
      · have hL : 1 ≤ l.length := List.length_pos.mpr hemp
        obtain ⟨ihj, ihlen, ihne, ihemp⟩ := ih (l.drop 8000)
          (by rw [List.length_drop]; omega)
        have hc : docChunks l = l.take 8000 :: docChunks (l.drop 8000) :=
          docChunks_cons l hemp
        refine ⟨?_, ?_, ?_, ?_⟩
        · rw [hc, List.flatten_cons, ihj, List.take_append_drop]
        · rw [hc]
          intro c hcm
          cases htail : docChunks (l.drop 8000) with
          | nil => rw [htail, List.dropLast_single] at hcm; simp at hcm
          | cons a t =>
              rw [htail, List.dropLast_cons₂] at hcm
              rcases List.mem_cons.mp hcm with rfl | hmem
              · have hdne : l.drop 8000 ≠ [] := by
                  intro h0
                  rw [ihemp.mpr h0] at htail
                  exact List.cons_ne_nil a t htail.symm
                have h8 : 8000 < l.length := by
                  have := List.length_pos.mpr hdne
                  rw [List.length_drop] at this
                  omega
                rw [List.length_take]
                omega
              · exact ihlen c (htail ▸ hmem)
        · rw [hc]
          intro c hcm
          rcases List.mem_cons.mp hcm with rfl | hmem
          · intro h0
            have hlt : (l.take 8000).length = 0 := by rw [h0]; rfl
            rw [List.length_take] at hlt
            omega
          · exact ihne c hmem
        · constructor
          · intro h0
            rw [hc] at h0
            exact absurd h0 (List.cons_ne_nil _ _)
          · intro h0
            exact absurd h0 hemp

/-- Witness for `C4_chunker`: on the two-character text `"ab"` the single
chunk concatenates back to the text and is non-empty. -/
theorem C4_witness :
    (docChunks ("ab".data)).flatten = "ab".data
    ∧ (['a', 'b'] ≠ ([] : List Char)) :=
  ⟨(C4_chunker "ab".data).1,
   (C4_chunker "ab".data).2.2.1 ['a', 'b'] (by decide)⟩

lemma applyUpserts_lookup {V : Type} :
    ∀ (l : List (String × (V × ChunkMeta))) (st : Store V) (k : String),
    applyUpserts l st k = match lastVal k l with
      | some v => some v
      | none => st k := by
  intro l
  induction l with
  | nil => intro st k; rfl
  | cons a t ih =>
      intro st k
      show applyUpserts t (store_upsert st a.1 a.2) k = _
      rw [ih]
      cases h : lastVal k t with
      | some v => simp [lastVal, h]
      | none =>
          by_cases hk : a.1 = k
          · subst hk
            simp [lastVal, h, store_upsert]
          · simp [lastVal, h, store_upsert, hk, Ne.symm hk]

lemma applyUpserts_idem {V : Type} (l : List (String × (V × ChunkMeta)))
    (st : Store V) :
    applyUpserts l (applyUpserts l st) = applyUpserts l st := by
  funext k
  rw [applyUpserts_lookup, applyUpserts_lookup]
  cases h : lastVal k l with
  | some v => rfl
  | none => rfl

lemma lastVal_isSome_eq {α β : Type} :
    ∀ (l₁ : List (String × α)) (l₂ : List (String × β)),
    l₁.map Prod.fst = l₂.map Prod.fst →
    ∀ k, (lastVal k l₁).isSome = (lastVal k l₂).isSome := by
  intro l₁
  induction l₁ with
  | nil =>
      intro l₂ h k
      have h2 : l₂ = [] := by
        cases l₂ with
        | nil => rfl
        | cons b t => simp at h
      subst h2; rfl
  | cons a t ih =>
      intro l₂ h k
      cases l₂ with
      | nil => simp at h
      | cons b t₂ =>
          simp only [List.map_cons, List.cons.injEq] at h
          obtain ⟨hab, ht⟩ := h
          have hrec := ih t₂ ht k
          simp only [lastVal]
          cases h1 : lastVal k t with
          | some v =>
              cases h2 : lastVal k t₂ with
              | some w => rfl
              | none => rw [h1, h2] at hrec; simp at hrec
          | none =>
              cases h2 : lastVal k t₂ with
              | some w => rw [h1, h2] at hrec; simp at hrec
              | none =>
                  rw [hab]
                  by_cases hk : b.1 = k <;> simp [hk]

lemma enum_map_fst {β γ : Type} (l : List β) (f : Nat → γ) :
    l.enum.map (fun p => f p.1) = (List.range l.length).map f := by
  rw [List.enum_eq_zip_range]
  have h1 : ((List.range l.length).zip l).map (fun p => f p.1)
      = (((List.range l.length).zip l).map Prod.fst).map f := by
    rw [List.map_map]; rfl
  rw [h1, List.map_fst_zip]
  rw [List.length_range]

lemma ingest_keys {V : Type} (embed : List Char → V) (text : List Char)
    (fname fid : String) :
    (ingest_upserts embed text fname fid).map Prod.fst = upsert_keys fid text := by
  unfold ingest_upserts upsert_keys
  rw [List.map_map]
  exact enum_map_fst (docChunks text) (fun i => fid ++ "_" ++ Nat.repr i)

/-- C6 (confirmed).  The ingestion loop derives its upsert keys from the
file identifier and the chunk index alone (`file_id ++ "_" ++ i`), so two
runs over the same document text with the same file identifier produce the
same key sequence whatever the embedding results or file name are; under
the spec's upsert contract (idempotent overwrite keyed by id - the vector
store itself is external to the repository) re-ingesting the same
document with the same identifier rewrites exactly the same keys: the
store is unchanged by the second run with identical embeddings, and even
with different embedding results no key is added or removed. -/
theorem C6_reingestion :
    (∀ (V : Type) (embed : List Char → V) (text : List Char) (fname fid : String),
        (ingest_upserts embed text fname fid).map Prod.fst = upsert_keys fid text)
    ∧ (∀ (V : Type) (embed : List Char → V) (st : Store V) (text : List Char)
        (fname fid : String),
        upsert_to_pinecone embed (upsert_to_pinecone embed st text fname fid)
            text fname fid
          = upsert_to_pinecone embed st text fname fid)
    ∧ (∀ (V : Type) (e₁ e₂ : List Char → V) (st : Store V) (text : List Char)
        (fn₁ fn₂ fid k : String),
        ((upsert_to_pinecone e₂ (upsert_to_pinecone e₁ st text fn₁ fid)
            text fn₂ fid) k).isSome
          = ((upsert_to_pinecone e₁ st text fn₁ fid) k).isSome) := by
  refine ⟨fun V embed text fname fid => ingest_keys embed text fname fid, ?_, ?_⟩
  · intro V embed st text fname fid
    exact applyUpserts_idem (ingest_upserts embed text fname fid) st
  · intro V e₁ e₂ st text fn₁ fn₂ fid k
    have hkeys : (ingest_upserts e₂ text fn₂ fid).map Prod.fst
        = (ingest_upserts e₁ text fn₁ fid).map Prod.fst := by
      rw [ingest_keys, ingest_keys]
    have hl := lastVal_isSome_eq (ingest_upserts e₂ text fn₂ fid)
      (ingest_upserts e₁ text fn₁ fid) hkeys k
    show (applyUpserts (ingest_upserts e₂ text fn₂ fid)
        (applyUpserts (ingest_upserts e₁ text fn₁ fid) st) k).isSome
      = (applyUpserts (ingest_upserts e₁ text fn₁ fid) st k).isSome
    rw [applyUpserts_lookup (ingest_upserts e₂ text fn₂ fid),
      applyUpserts_lookup (ingest_upserts e₁ text fn₁ fid)]
    cases h2 : lastVal k (ingest_upserts e₂ text fn₂ fid) with
    | some v =>
        cases h1 : lastVal k (ingest_upserts e₁ text fn₁ fid) with
        | some w => rfl
        | none => simp [h2, h1] at hl
    | none =>
        cases h1 : lastVal k (ingest_upserts e₁ text fn₁ fid) with
        | some w => simp [h2, h1] at hl
        | none => rfl
